import Mathlib

/-!
Verification of the generated Wwise identifier table
(`dust-bunny-Origins_WwiseProject/GeneratedSoundBanks/Wwise_IDs.h`).

The header declares, under the namespace `AK`, five nested namespaces
(`EVENTS`, `GAME_PARAMETERS`, `BUSSES`, `AUX_BUSSES`, `AUDIO_DEVICES`),
each holding `static const AkUniqueID` (unsigned 32-bit) constants.
We embed each constant as a `Nat` definition with the same name, and the
whole table as a mapping from a fixed `Category` type to a list of
`(name, value)` pairs.
-/

namespace AK

namespace EVENTS

/-- `static const AkUniqueID PLAY_AMB_ROOM2_LP = 2291298689U;` -/
def PLAY_AMB_ROOM2_LP : Nat := 2291298689

/-- `static const AkUniqueID PLAY_AMB_ROOM_LP = 3112684807U;` -/
def PLAY_AMB_ROOM_LP : Nat := 3112684807

/-- `static const AkUniqueID PLAY_MUS_4_4_100BPM_THEME_NL = 513704729U;` -/
def PLAY_MUS_4_4_100BPM_THEME_NL : Nat := 513704729

/-- `static const AkUniqueID PLAY_SFX_BUNNYABSORB_NL = 1567933058U;` -/
def PLAY_SFX_BUNNYABSORB_NL : Nat := 1567933058

/-- `static const AkUniqueID PLAY_SFX_BUNNYIMPACT_NL = 4038925685U;` -/
def PLAY_SFX_BUNNYIMPACT_NL : Nat := 4038925685

/-- `static const AkUniqueID PLAY_SFX_BUNNYMOVE_NL = 1400485278U;` -/
def PLAY_SFX_BUNNYMOVE_NL : Nat := 1400485278

/-- `static const AkUniqueID PLAY_SFX_BUNNYROLL_NL = 4212669292U;` -/
def PLAY_SFX_BUNNYROLL_NL : Nat := 4212669292

/-- `static const AkUniqueID PLAY_SFX_WOODBLOCK_IMPACT_WOOD = 841695155U;` -/
def PLAY_SFX_WOODBLOCK_IMPACT_WOOD : Nat := 841695155

end EVENTS

namespace GAME_PARAMETERS

/-- `static const AkUniqueID VELOCITY = 3519441192U;` -/
def VELOCITY : Nat := 3519441192

end GAME_PARAMETERS

namespace BUSSES

/-- `static const AkUniqueID MAIN_AUDIO_BUS = 2246998526U;` -/
def MAIN_AUDIO_BUS : Nat := 2246998526

end BUSSES

namespace AUX_BUSSES

/-- `static const AkUniqueID ROOM = 2077253480U;` -/
def ROOM : Nat := 2077253480

end AUX_BUSSES

namespace AUDIO_DEVICES

/-- `static const AkUniqueID NO_OUTPUT = 2317455096U;` -/
def NO_OUTPUT : Nat := 2317455096

/-- `static const AkUniqueID SYSTEM = 3859886410U;` -/
def SYSTEM : Nat := 3859886410

end AUDIO_DEVICES

end AK

/-- The five category namespaces of the header, and no others: `EVENTS`,
`GAME_PARAMETERS`, `BUSSES`, `AUX_BUSSES`, `AUDIO_DEVICES`. -/
inductive Category where
  | Events
  | GameParameters
  | Busses
  | AuxBusses
  | AudioDevices
deriving DecidableEq, Repr

/-- The identifier table: for each category, the list of
`(name, value)` constant declarations exactly as they appear in
`Wwise_IDs.h`, in source order. -/
def entries : Category → List (String × Nat)
  | .Events =>
      [("PLAY_AMB_ROOM2_LP", AK.EVENTS.PLAY_AMB_ROOM2_LP),
       ("PLAY_AMB_ROOM_LP", AK.EVENTS.PLAY_AMB_ROOM_LP),
       ("PLAY_MUS_4_4_100BPM_THEME_NL", AK.EVENTS.PLAY_MUS_4_4_100BPM_THEME_NL),
       ("PLAY_SFX_BUNNYABSORB_NL", AK.EVENTS.PLAY_SFX_BUNNYABSORB_NL),
       ("PLAY_SFX_BUNNYIMPACT_NL", AK.EVENTS.PLAY_SFX_BUNNYIMPACT_NL),
       ("PLAY_SFX_BUNNYMOVE_NL", AK.EVENTS.PLAY_SFX_BUNNYMOVE_NL),
       ("PLAY_SFX_BUNNYROLL_NL", AK.EVENTS.PLAY_SFX_BUNNYROLL_NL),
       ("PLAY_SFX_WOODBLOCK_IMPACT_WOOD", AK.EVENTS.PLAY_SFX_WOODBLOCK_IMPACT_WOOD)]
  | .GameParameters =>
      [("VELOCITY", AK.GAME_PARAMETERS.VELOCITY)]
  | .Busses =>
      [("MAIN_AUDIO_BUS", AK.BUSSES.MAIN_AUDIO_BUS)]
  | .AuxBusses =>
      [("ROOM", AK.AUX_BUSSES.ROOM)]
  | .AudioDevices =>
      [("NO_OUTPUT", AK.AUDIO_DEVICES.NO_OUTPUT),
       ("SYSTEM", AK.AUDIO_DEVICES.SYSTEM)]

/-- The fixed list of all five categories. -/
def allCategories : List Category :=
  [.Events, .GameParameters, .Busses, .AuxBusses, .AudioDevices]

/-- All values of the table, across every category, in source order. -/
def allValues : List Nat :=
  (allCategories.map (fun c => (entries c).map Prod.snd)).flatten

/-- A table value: any assignment of `(name, value)` lists to the five
categories, of which `entries` is the one exported for this project. -/
def Table : Type := Category → List (String × Nat)

/-- Read-only lookup of a constant by category and symbolic name — the only
operation the table exposes. -/
def lookup (t : Table) (c : Category) (n : String) : Option Nat :=
  List.lookup n (t c)

/-- An operation on the table: a lookup request, naming a category and a
symbolic name. The table exposes no other operation. -/
def Op : Type := Category × String

/-- Run a sequence of operations against a table, returning each lookup's
result together with the table as it stands afterwards. -/
def runOps (t : Table) : List Op → List (Option Nat) × Table
  | [] => ([], t)
  | op :: rest => (lookup t op.1 op.2 :: (runOps t rest).1, (runOps t rest).2)

/-- The label under which a category's constants are grouped in the
generated header. -/
def Category.label : Category → String
  | .Events => "EVENTS"
  | .GameParameters => "GAME_PARAMETERS"
  | .Busses => "BUSSES"
  | .AuxBusses => "AUX_BUSSES"
  | .AudioDevices => "AUDIO_DEVICES"

/-- Modelled from the spec: the export step of the external authoring tool
(not in src/), which regenerates, per category, a group of
`name = integer_value` constant declarations under the category's label.
The produced output is a pure function of the input project state, here
taken to be the table of names and values being exported. -/
def generate (p : Table) : List String :=
  (allCategories.map (fun c =>
    c.label :: (p c).map (fun e => e.1 ++ " = " ++ toString e.2))).flatten

/-- Every entry of every category satisfies the boolean predicate `p`. -/
theorem entries_all_spec (p : String × Nat → Bool) (c : Category)
    (hall : (entries c).all p = true) :
    ∀ e ∈ entries c, p e = true :=
  List.all_eq_true.mp hall

/-- C1: for the unchanged input project, the table binds the spec's five
sampled constants to exactly the stated values:
`EVENTS.PLAY_SFX_BUNNYROLL_NL = 4212669292`,
`GAME_PARAMETERS.VELOCITY = 3519441192`,
`BUSSES.MAIN_AUDIO_BUS = 2246998526`, `AUX_BUSSES.ROOM = 2077253480`,
and `AUDIO_DEVICES.NO_OUTPUT = 2317455096`. -/
theorem sampled_constants_correct :
    lookup entries .Events "PLAY_SFX_BUNNYROLL_NL" = some 4212669292 ∧
    lookup entries .GameParameters "VELOCITY" = some 3519441192 ∧
    lookup entries .Busses "MAIN_AUDIO_BUS" = some 2246998526 ∧
    lookup entries .AuxBusses "ROOM" = some 2077253480 ∧
    lookup entries .AudioDevices "NO_OUTPUT" = some 2317455096 := by
  refine ⟨rfl, rfl, rfl, rfl, rfl⟩

/-- C2: every named constant in the table, in every category, has a value
that fits in an unsigned 32-bit integer, i.e. lies below `2 ^ 32`. -/
theorem values_are_uint32 (c : Category) (n : String) (v : Nat)
    (h : (n, v) ∈ entries c) : v < 2 ^ 32 := by
  have hall : (entries c).all (fun e => decide (e.2 < 2 ^ 32)) = true := by
    cases c <;> decide
  simpa using entries_all_spec _ c hall (n, v) h

/-- Witness for C2: `VELOCITY` is in the GameParameters category and its
value `3519441192` is below `2 ^ 32`. -/
theorem values_are_uint32_witness :
    ("VELOCITY", 3519441192) ∈ entries .GameParameters ∧ 3519441192 < 2 ^ 32 :=
  ⟨by decide, values_are_uint32 .GameParameters "VELOCITY" 3519441192 (by decide)⟩

/-- C3: within each single category, the constant names are pairwise
distinct. -/
theorem names_nodup_within_category (c : Category) :
    ((entries c).map Prod.fst).Nodup := by
  cases c <;> decide

/-- C4: the table consists of exactly the five fixed categories — every
category is one of the five listed, the five are pairwise distinct, and
there are five of them. -/
theorem categories_exactly_five :
    (∀ c : Category, c ∈ allCategories) ∧
    allCategories.Nodup ∧ allCategories.length = 5 :=
  ⟨fun c => by cases c <;> decide, by decide, rfl⟩

/-- C5: no category of this export is empty; in particular the Events
category is non-empty. -/
theorem no_category_empty :
    (∀ c : Category, entries c ≠ []) ∧ entries .Events ≠ [] :=
  ⟨fun c => by cases c <;> decide, by decide⟩

/-- C6: the table is immutable — its only operation is lookup, and running
any sequence of lookup operations leaves the table unchanged, so every
constant reads the same value at all times. -/
theorem table_immutable_under_ops (ops : List Op) :
    (runOps entries ops).2 = entries ∧
    ∀ c n, lookup (runOps entries ops).2 c n = lookup entries c n := by
  have h : ∀ l : List Op, (runOps entries l).2 = entries := by
    intro l
    induction l with
    | nil => rfl
    | cons op rest ih => simpa [runOps] using ih
  exact ⟨h ops, fun c n => by rw [h ops]⟩

/-- C7: generation is deterministic — two regenerations from the same
unchanged project state produce identical output (same names, same
values, same rendered lines). Modelled from the spec, since the external
authoring tool's export step is not part of the sources. -/
theorem generation_deterministic (p q : Table) (h : p = q) :
    generate p = generate q := by rw [h]

/-- Witness for C7: regenerating from the exported project state twice
yields identical output. -/
theorem generation_deterministic_witness :
    entries = entries ∧ generate entries = generate entries :=
  ⟨rfl, generation_deterministic entries entries rfl⟩

/-- C8: the table has exactly 13 entries — 8 Events, 1 GameParameter,
1 Bus, 1 AuxBus and 2 AudioDevices — and the eight bindings beyond the
spec's samples have exactly the stated values. -/
theorem table_full_contents :
    (entries .Events).length = 8 ∧
    (entries .GameParameters).length = 1 ∧
    (entries .Busses).length = 1 ∧
    (entries .AuxBusses).length = 1 ∧
    (entries .AudioDevices).length = 2 ∧
    allValues.length = 13 ∧
    lookup entries .Events "PLAY_AMB_ROOM2_LP" = some 2291298689 ∧
    lookup entries .Events "PLAY_AMB_ROOM_LP" = some 3112684807 ∧
    lookup entries .Events "PLAY_MUS_4_4_100BPM_THEME_NL" = some 513704729 ∧
    lookup entries .Events "PLAY_SFX_BUNNYABSORB_NL" = some 1567933058 ∧
    lookup entries .Events "PLAY_SFX_BUNNYIMPACT_NL" = some 4038925685 ∧
    lookup entries .Events "PLAY_SFX_BUNNYMOVE_NL" = some 1400485278 ∧
    lookup entries .Events "PLAY_SFX_WOODBLOCK_IMPACT_WOOD" = some 841695155 ∧
    lookup entries .AudioDevices "SYSTEM" = some 3859886410 := by
  refine ⟨rfl, rfl, rfl, rfl, rfl, rfl, rfl, rfl, rfl, rfl, rfl, rfl, rfl, rfl⟩

/-- C9: the 13 integer values are pairwise distinct across the whole table,
even across categories. -/
theorem values_pairwise_distinct : allValues.Nodup := by decide

/-- C10: every constant value in the table is strictly positive, so no ID
collides with a zero sentinel. -/
theorem values_positive (c : Category) (n : String) (v : Nat)
    (h : (n, v) ∈ entries c) : 0 < v := by
  have hall : (entries c).all (fun e => decide (0 < e.2)) = true := by
    cases c <;> decide
  simpa using entries_all_spec _ c hall (n, v) h

/-- Witness for C10: `ROOM` is in the AuxBusses category and its value
`2077253480` is strictly positive. -/
theorem values_positive_witness :
    ("ROOM", 2077253480) ∈ entries .AuxBusses ∧ 0 < 2077253480 :=
  ⟨by decide, values_positive .AuxBusses "ROOM" 2077253480 (by decide)⟩
